import Mathlib

/-!
Verification development for the ShakBot conversational client.

The definitions below are shallow embeddings of the TypeScript sources:
`src/types.ts` (data model), `src/services/geminiService.ts` (retry
controller, streaming, PCM decoding), the Supabase persistence layer
(`saveMessage`), and the orchestration core in `src/App.tsx`
(`processMessage`, the voice-capture handlers, background enrichment).
Asynchronous effects are modelled by explicit state passing: a network
call's behaviour is an input (per-attempt outcomes, fragment lists),
timers are absolute deadlines observed at a query time.
-/

namespace ShakBot

/-! ## Data model (src/types.ts) -/

inductive Role where
  | user
  | model
deriving DecidableEq, Repr

structure Message where
  id : String
  role : Role
  text : String
  timestamp : Nat
  imageUrl : Option String := none
  /-- `isError?: boolean`; an absent field reads as `false`. -/
  isError : Bool := false
deriving DecidableEq, Repr

structure ChatSession where
  id : String
  title : String
  messages : List Message
  createdAt : Nat
deriving DecidableEq, Repr

/-! ## Retry-with-backoff controller (geminiService.ts, retryWithBackoff)

A thrown JavaScript error value is modelled by the fields the controller
inspects: `error?.status`, `error?.code`, `error?.error?.code`, and the
string `JSON.stringify(error)` searched for textual markers. -/

structure JsError where
  status : Option Nat
  code : Option Nat
  /-- `error?.error?.code`, the nested code field. -/
  nestedCode : Option Nat
  /-- `JSON.stringify(error)`. -/
  json : String
deriving DecidableEq, Repr

/-- `a.includes(b)` on JavaScript strings: substring containment. -/
def strContains (s sub : String) : Bool :=
  decide (sub.data <:+: s.data)

/-- The quota / rate-limit classification of retryWithBackoff
(geminiService.ts lines 36-42). -/
def isQuotaError (e : JsError) : Bool :=
  e.status == some 429 || e.code == some 429 || e.nestedCode == some 429 ||
  strContains e.json "RESOURCE_EXHAUSTED" || strContains e.json "429"

inductive RetryError where
  /-- the original thrown error, re-thrown -/
  | js (e : JsError)
  /-- `new Error("Max retries exceeded")` after the loop -/
  | maxRetries
deriving DecidableEq, Repr

/-- Observable trace of one `retryWithBackoff` run: the final result, the
number of calls made to the wrapped function, and the waits inserted
between attempts, in order. -/
structure RetryTrace (T : Type) where
  result : Except RetryError T
  attempts : Nat
  delays : List Nat
deriving Repr

/-- The `for (let i = 0; i < retries; i++)` loop of `retryWithBackoff`.
`fn i` is the outcome of the `(i+1)`-th call of the wrapped function.
`fuel` equals `retries - i` and makes the recursion structural. -/
def retryLoop {T : Type} (fn : Nat → Except JsError T) (retries : Nat) :
    Nat → Nat → Nat → List Nat → RetryTrace T
  | 0, i, _, delays => ⟨.error .maxRetries, i, delays⟩
  | fuel + 1, i, currentDelay, delays =>
    match fn i with
    | .ok v => ⟨.ok v, i + 1, delays⟩
    | .error e =>
      if isQuotaError e && decide (i < retries - 1) then
        retryLoop fn retries fuel (i + 1) (currentDelay * 2) (delays ++ [currentDelay])
      else
        ⟨.error (.js e), i + 1, delays⟩

/-- `retryWithBackoff(fn, retries, initialDelay)` (geminiService.ts 28-55). -/
def retryWithBackoff {T : Type} (fn : Nat → Except JsError T)
    (retries : Nat) (initialDelay : Nat) : RetryTrace T :=
  retryLoop fn retries retries 0 initialDelay []

/-! ## PCM decoding (geminiService.ts, generateSpeech lines 260-281) -/

/-- Reading a 16-bit word as an `Int16Array` element: two's complement. -/
def int16OfNat (v : Nat) : Int :=
  if v % 65536 < 32768 then ((v % 65536 : Nat) : Int)
  else ((v % 65536 : Nat) : Int) - 65536

/-- `new Int16Array(bytes.buffer)`: consecutive byte pairs, little endian. -/
def pcm16leSamples : List Nat → List Int
  | lo :: hi :: rest => int16OfNat (lo % 256 + 256 * (hi % 256)) :: pcm16leSamples rest
  | _ => []

/-- `channelData[i] = dataInt16[i] / 32768.0`. All sample values are
dyadic rationals that the Float32 channel represents exactly, so the
normalization is modelled over `ℚ`. -/
def normalizeSample (s : Int) : ℚ := (s : ℚ) / 32768

/-- The `AudioBuffer` produced by `generateSpeech`: one channel at a
fixed 24000 Hz rate. -/
structure DecodedAudio where
  channels : Nat
  sampleRate : Nat
  samples : List ℚ
deriving DecidableEq, Repr

/-- PCM decode of the binary payload in `generateSpeech`:
`ctx.createBuffer(1, frameCount, 24000)` filled with the normalized
little-endian signed 16-bit samples. -/
def decodePcm (bytes : List Nat) : DecodedAudio :=
  { channels := 1
    sampleRate := 24000
    samples := (pcm16leSamples bytes).map normalizeSample }

/-! ## Memory refinement continuation (App.tsx 1024-1030)

`refineUserMemory(userMemory, userText, accumulatedText).then(newMemory => ...)`
compares the task result against `userMemory` as captured when the turn
ran (the snapshot at task launch). `live` is the memory value at the
moment the continuation executes. -/

/-- Returns the memory value after the continuation and whether the new
value was applied and persisted. -/
def refineContinuation (snapshot newMemory live : String) : String × Bool :=
  if newMemory ≠ snapshot then (newMemory, true) else (live, false)

/-! ## Voice capture state machine (App.tsx 706-823)

`intent` is `isListeningRef.current`, `listening` the surfaced
`isListening` state, `interim` the `interimTranscript` preview, and
`silenceDeadline` the absolute time at which the armed silence timer
fires (`none` when no timer is armed). -/

structure VoiceState where
  intent : Bool
  listening : Bool
  input : String
  interim : String
  silenceDeadline : Option Nat
deriving DecidableEq, Repr

def initialVoiceState : VoiceState :=
  { intent := false, listening := false, input := "", interim := "", silenceDeadline := none }

/-- `stopListening` (App.tsx 708-725): drop intent, stop the resource,
clear the timer, clear listening state and the interim preview. -/
def stopListening (s : VoiceState) : VoiceState :=
  { intent := false, listening := false, input := s.input, interim := "",
    silenceDeadline := none }

/-- JavaScript `s.trim()`: strip leading and trailing whitespace. Defined
by structural list recursion so that concrete runs evaluate. -/
def jsTrim (s : String) : String :=
  ⟨((s.data.dropWhile Char.isWhitespace).reverse.dropWhile Char.isWhitespace).reverse⟩

/-- JavaScript `s.endsWith(" ")`: the last character is a space. -/
def endsWithSpace (s : String) : Bool :=
  s.data.getLast? == some ' '

/-- The committed-input update in `recognition.onresult`
(App.tsx 767-771): single-space normalized append of the final segment. -/
def commitFinal (prev finalTranscript : String) : String :=
  let trimmed := jsTrim prev
  let spacer := if trimmed.length > 0 && !(endsWithSpace trimmed) then " " else ""
  trimmed ++ spacer ++ finalTranscript

/-- `recognition.onresult` (App.tsx 749-775) at absolute time `now`:
rearm the silence timer to `now + 2500`, commit a non-empty final
transcript to the input buffer, expose the interim transcript. -/
def onResult (now : Nat) (finalTranscript interim : String) (s : VoiceState) : VoiceState :=
  { s with
    silenceDeadline := some (now + 2500)
    input := if finalTranscript ≠ "" then commitFinal s.input finalTranscript else s.input
    interim := interim }

/-- `recognition.onstart` (App.tsx 777-785) at absolute time `now`:
surface listening, record intent, arm the 5000ms bootstrap timer. -/
def onStart (now : Nat) (s : VoiceState) : VoiceState :=
  { s with listening := true, intent := true, silenceDeadline := some (now + 5000) }

/-- The state as observed at time `t`: a pending silence timer whose
deadline has passed has fired `stopListening`. -/
def observeAt (s : VoiceState) (t : Nat) : VoiceState :=
  match s.silenceDeadline with
  | some d => if d ≤ t then stopListening s else s
  | none => s

/-- `recognition.onend` (App.tsx 795-806). `startOk` says whether
`recognition.start()` succeeds; the second component records whether a
new resource was started. -/
def onEnd (startOk : Bool) (s : VoiceState) : VoiceState × Bool :=
  if s.intent then
    if startOk then (s, true) else (stopListening s, false)
  else
    ({ s with listening := false, interim := "" }, false)

/-! ## Session store operations (App.tsx setSessions updaters) -/

/-- `prev.map(session => session.id === sessionId ? append : session)`:
the user / placeholder / bot / error message appends in processMessage. -/
def appendMessage (sessions : List ChatSession) (sessionId : String) (m : Message) :
    List ChatSession :=
  sessions.map fun s =>
    if s.id = sessionId then { s with messages := s.messages ++ [m] } else s

/-- The per-fragment update (App.tsx 1004-1012): rewrite the streaming
bot message's text to the accumulated string. -/
def updateBotText (sessions : List ChatSession) (sessionId botMessageId : String)
    (t : String) : List ChatSession :=
  sessions.map fun s =>
    if s.id = sessionId then
      { s with messages := s.messages.map fun m =>
          if m.id = botMessageId then { m with text := t } else m }
    else s

/-- `sessions.find(s => s.id === sessionId)`. -/
def sessionById (sessions : List ChatSession) (sessionId : String) : Option ChatSession :=
  sessions.find? fun s => s.id == sessionId

/-- The text of the message `mid` in session `sid`, when both exist. -/
def findMessageText (sessions : List ChatSession) (sid mid : String) : Option String :=
  (sessionById sessions sid).bind fun s =>
    (s.messages.find? fun m => m.id == mid).map Message.text

/-- Number of messages held by session `sid` (0 when the session is absent). -/
def msgCount (sessions : List ChatSession) (sid : String) : Nat :=
  ((sessionById sessions sid).map fun s => s.messages.length).getD 0

/-- The title-generation trigger (App.tsx 1035-1044): the target session
exists and holds exactly two messages. -/
def titleFires (sessions : List ChatSession) (sid : String) : Bool :=
  match sessionById sessions sid with
  | some s => s.messages.length == 2
  | none => false

/-! ## Streaming completion pipeline (geminiService.ts sendMessageStream,
App.tsx text mode lines 978-1020) -/

/-- `sendMessageStream` yields `chunk.text` only when it is truthy
(geminiService.ts 97-105): `none` and empty texts are skipped. -/
def streamTexts (chunks : List (Option String)) : List String :=
  chunks.filterMap fun c =>
    match c with
    | none => none
    | some t => if t = "" then none else some t

/-- Concatenation of a fragment list in delivery order. -/
def concatFragments : List String → String
  | [] => ""
  | f :: rest => f ++ concatFragments rest

/-- The `for await (const chunk of stream)` loop (App.tsx 1001-1013):
accumulate each fragment and rewrite the bot message text to the
accumulated string. Returns the final `accumulatedText` and the session
collection after the loop. -/
def streamLoop (sid botMessageId : String) :
    List String → String → List ChatSession → String × List ChatSession
  | [], acc, sessions => (acc, sessions)
  | chunk :: rest, acc, sessions =>
    let acc2 := acc ++ chunk
    streamLoop sid botMessageId rest acc2 (updateBotText sessions sid botMessageId acc2)

/-- The empty placeholder bot message (App.tsx 983-988). -/
def placeholderMsg (botMessageId : String) (ts : Nat) : Message :=
  { id := botMessageId, role := .model, text := "", timestamp := ts }

/-! ## Persistence (src/unnamed/part_001, dbService.saveMessage 91-104) -/

/-- One row of the `messages` table insert. -/
structure MessageRow where
  id : String
  session_id : String
  role : String
  text : String
  image_url : Option String
  timestamp : Nat
  is_error : Bool
deriving DecidableEq, Repr

def roleString : Role → String
  | .user => "user"
  | .model => "model"

/-- The insert payload built by `saveMessage`. -/
def messageRow (sessionId : String) (m : Message) : MessageRow :=
  { id := m.id, session_id := sessionId, role := roleString m.role, text := m.text,
    image_url := m.imageUrl, timestamp := m.timestamp, is_error := m.isError }

/-- A Supabase error value as far as `saveMessage` observes it. -/
structure DbError where
  code : String
  message : String
deriving DecidableEq, Repr

/-- Observable trace of one `saveMessage` call: the insert payloads sent
to the backend in order, and the error handed to `logError` (swallowed,
never re-thrown). -/
structure SaveReport where
  attempted : List MessageRow
  loggedError : Option DbError
deriving DecidableEq, Repr

/-- `dbService.saveMessage(sessionId, message)`: a single insert of the
unmodified row; if the backend rejects it the error is logged and the
save is abandoned. -/
def saveMessage (backend : MessageRow → Option DbError) (sessionId : String)
    (m : Message) : SaveReport :=
  let row := messageRow sessionId m
  { attempted := [row], loggedError := backend row }

/-! ## A full primary turn (App.tsx processMessage 915-1095)

The behaviour of the completion service during the turn is an input: the
fragment sequence of a completed text stream, the fragments delivered
before a mid-turn failure, or the response / failure of the one-shot
multimodal request. `errText` in the failure variants is the error
message text computed by the catch block. -/

inductive Outcome where
  | textOk (chunks : List (Option String))
  | textFail (chunksBefore : List (Option String)) (errText : String)
  | imageOk (botText : String) (image : Option String)
  | imageFail (errText : String)
deriving DecidableEq, Repr

def Outcome.isSuccess : Outcome → Bool
  | .textOk _ => true
  | .imageOk _ _ => true
  | _ => false

/-- Result of the body of `processMessage` after the user message append. -/
structure TurnResult where
  sessions : List ChatSession
  titleFired : Bool
  saves : List SaveReport
deriving Repr

/-- The error bot message appended by the catch block (App.tsx 1074-1087). -/
def errorMsg (errId : String) (ts : Nat) (errText : String) : Message :=
  { id := errId, role := .model, text := errText, timestamp := ts, isError := true }

/-- The body of `processMessage` for one turn against session `sid`:
append the user message (and save it), then run the selected mode.  On
success of either mode the title-generation check runs on the resulting
session collection; on failure the catch block appends and saves the
error message and the title check is skipped. -/
def processTurn (backend : MessageRow → Option DbError) (sessions : List ChatSession)
    (sid : String) (userMsg : Message) (botMessageId errId : String) (ts : Nat) :
    Outcome → TurnResult
  | .textOk chunks =>
    let s1 := appendMessage sessions sid userMsg
    let saveU := saveMessage backend sid userMsg
    let s2 := appendMessage s1 sid (placeholderMsg botMessageId ts)
    let r := streamLoop sid botMessageId (streamTexts chunks) "" s2
    let finalBot : Message := { placeholderMsg botMessageId ts with text := r.1 }
    ⟨r.2, titleFires r.2 sid, [saveU, saveMessage backend sid finalBot]⟩
  | .textFail chunksBefore errText =>
    let s1 := appendMessage sessions sid userMsg
    let saveU := saveMessage backend sid userMsg
    let s2 := appendMessage s1 sid (placeholderMsg botMessageId ts)
    let r := streamLoop sid botMessageId (streamTexts chunksBefore) "" s2
    let e := errorMsg errId ts errText
    ⟨appendMessage r.2 sid e, false, [saveU, saveMessage backend sid e]⟩
  | .imageOk botText image =>
    let s1 := appendMessage sessions sid userMsg
    let saveU := saveMessage backend sid userMsg
    let bot : Message := { id := botMessageId, role := .model, text := botText,
                           timestamp := ts, imageUrl := image }
    let s2 := appendMessage s1 sid bot
    ⟨s2, titleFires s2 sid, [saveU, saveMessage backend sid bot]⟩
  | .imageFail errText =>
    let s1 := appendMessage sessions sid userMsg
    let saveU := saveMessage backend sid userMsg
    let e := errorMsg errId ts errText
    ⟨appendMessage s1 sid e, false, [saveU, saveMessage backend sid e]⟩

/-- Input data of one turn in a multi-turn run. -/
structure TurnInput where
  userMsg : Message
  botMessageId : String
  errId : String
  ts : Nat
  outcome : Outcome
deriving Repr

/-- A sequence of turns against the same session; returns the final
session collection and the per-turn title-trigger flags. -/
def runTurns (backend : MessageRow → Option DbError) (sessions : List ChatSession)
    (sid : String) : List TurnInput → List ChatSession × List Bool
  | [] => (sessions, [])
  | t :: rest =>
    let r := processTurn backend sessions sid t.userMsg t.botMessageId t.errId t.ts t.outcome
    let rec2 := runTurns backend r.sessions sid rest
    (rec2.1, r.titleFired :: rec2.2)

/-! ## Application state and the submission guard (App.tsx 915-951, 1092-1094) -/

structure AppState where
  sessions : List ChatSession
  isLoading : Bool
  input : String
  selectedImage : Option String
  isImageGenMode : Bool
  hasUser : Bool
  userMemory : String
  voice : VoiceState
deriving Repr

/-- Result of one `processMessage` invocation. -/
structure SubmitResult where
  state : AppState
  requestIssued : Bool
  saves : List SaveReport
deriving Repr

/-- `processMessage(sessionId, ...)` from its guard to its `finally`:
if the input is empty with no image, or a primary turn is already in
flight (`isLoading`), or there is no user, return immediately; otherwise
stop voice capture if active, clear the input UI, set the loading flag,
run the turn, and clear the loading flag in `finally`. -/
def submitBlocked (st : AppState) : Bool :=
  (jsTrim st.input == "" && st.selectedImage.isNone) || st.isLoading || !st.hasUser

def processMessageApp (backend : MessageRow → Option DbError) (st : AppState)
    (sid : String) (userMsgId botMessageId errId : String) (ts : Nat) (o : Outcome) :
    SubmitResult :=
  if submitBlocked st then
    ⟨st, false, []⟩
  else
    let voice2 := if st.voice.listening then stopListening st.voice else st.voice
    let userText := jsTrim st.input
    let userMsg : Message := { id := userMsgId, role := .user, text := userText,
                               imageUrl := st.selectedImage, timestamp := ts }
    let r := processTurn backend st.sessions sid userMsg botMessageId errId ts o
    ⟨{ st with sessions := r.sessions, isLoading := false, input := "",
               selectedImage := none, isImageGenMode := false, voice := voice2 },
      true, r.saves⟩

/-! ## Helper lemmas -/

theorem sessionById_map_preserving (ss : List ChatSession) (sid : String)
    (g : ChatSession → ChatSession) (hg : ∀ s, (g s).id = s.id) :
    sessionById (ss.map g) sid = (sessionById ss sid).map g := by
  unfold sessionById
  rw [List.find?_map]
  have hfun : ((fun s : ChatSession => s.id == sid) ∘ g)
      = fun s : ChatSession => s.id == sid := by
    funext s
    simp [Function.comp, hg]
  rw [hfun]

theorem sessionById_some_id (ss : List ChatSession) (sid : String) (s : ChatSession)
    (h : sessionById ss sid = some s) : s.id = sid := by
  have hp := List.find?_some (show List.find? (fun x => x.id == sid) ss = some s from h)
  simpa using hp

theorem appendMessage_id_preserving (sid : String) (m : Message) :
    ∀ s : ChatSession,
      ((if s.id = sid then { s with messages := s.messages ++ [m] } else s) : ChatSession).id
        = s.id := by
  intro s
  by_cases h : s.id = sid <;> simp [h]

theorem sessionById_appendMessage_some (ss : List ChatSession) (sid : String)
    (m : Message) (s : ChatSession) (h : sessionById ss sid = some s) :
    sessionById (appendMessage ss sid m) sid
      = some { s with messages := s.messages ++ [m] } := by
  unfold appendMessage
  rw [sessionById_map_preserving ss sid _ (appendMessage_id_preserving sid m), h]
  simp [sessionById_some_id ss sid s h]

theorem sessionById_appendMessage_none (ss : List ChatSession) (sid : String)
    (m : Message) (h : sessionById ss sid = none) :
    sessionById (appendMessage ss sid m) sid = none := by
  unfold appendMessage
  rw [sessionById_map_preserving ss sid _ (appendMessage_id_preserving sid m), h]
  rfl

theorem updateBotText_id_preserving (sid mid t : String) :
    ∀ s : ChatSession,
      ((if s.id = sid then
          { s with messages := s.messages.map fun m =>
              if m.id = mid then { m with text := t } else m }
        else s) : ChatSession).id = s.id := by
  intro s
  by_cases h : s.id = sid <;> simp [h]

theorem sessionById_updateBotText_some (ss : List ChatSession) (sid mid t : String)
    (s : ChatSession) (h : sessionById ss sid = some s) :
    sessionById (updateBotText ss sid mid t) sid
      = some { s with messages := s.messages.map fun m =>
          if m.id = mid then { m with text := t } else m } := by
  unfold updateBotText
  rw [sessionById_map_preserving ss sid _ (updateBotText_id_preserving sid mid t), h]
  simp [sessionById_some_id ss sid s h]

theorem sessionById_updateBotText_none (ss : List ChatSession) (sid mid t : String)
    (h : sessionById ss sid = none) :
    sessionById (updateBotText ss sid mid t) sid = none := by
  unfold updateBotText
  rw [sessionById_map_preserving ss sid _ (updateBotText_id_preserving sid mid t), h]
  rfl

theorem isSome_appendMessage (ss : List ChatSession) (sid : String) (m : Message) :
    (sessionById (appendMessage ss sid m) sid).isSome = (sessionById ss sid).isSome := by
  cases h : sessionById ss sid with
  | none => rw [sessionById_appendMessage_none ss sid m h]
  | some s => rw [sessionById_appendMessage_some ss sid m s h]; rfl

theorem isSome_updateBotText (ss : List ChatSession) (sid mid t : String) :
    (sessionById (updateBotText ss sid mid t) sid).isSome
      = (sessionById ss sid).isSome := by
  cases h : sessionById ss sid with
  | none => rw [sessionById_updateBotText_none ss sid mid t h]
  | some s => rw [sessionById_updateBotText_some ss sid mid t s h]; rfl

theorem msgCount_appendMessage (ss : List ChatSession) (sid : String) (m : Message)
    (h : (sessionById ss sid).isSome = true) :
    msgCount (appendMessage ss sid m) sid = msgCount ss sid + 1 := by
  cases hs : sessionById ss sid with
  | none => rw [hs] at h; cases h
  | some s =>
    unfold msgCount
    rw [sessionById_appendMessage_some ss sid m s hs, hs]
    simp

theorem msgCount_updateBotText (ss : List ChatSession) (sid mid t : String) :
    msgCount (updateBotText ss sid mid t) sid = msgCount ss sid := by
  cases hs : sessionById ss sid with
  | none =>
    unfold msgCount
    rw [sessionById_updateBotText_none ss sid mid t hs, hs]
  | some s =>
    unfold msgCount
    rw [sessionById_updateBotText_some ss sid mid t s hs, hs]
    simp

theorem msgCount_pos_isSome (ss : List ChatSession) (sid : String)
    (h : 1 ≤ msgCount ss sid) : (sessionById ss sid).isSome = true := by
  unfold msgCount at h
  cases hs : sessionById ss sid with
  | none => rw [hs] at h; cases h
  | some s => rfl

theorem titleFires_eq (ss : List ChatSession) (sid : String) :
    titleFires ss sid = (msgCount ss sid == 2) := by
  unfold titleFires msgCount
  cases sessionById ss sid <;> rfl

theorem titleFires_true_msgCount (ss : List ChatSession) (sid : String)
    (h : titleFires ss sid = true) : msgCount ss sid = 2 := by
  rw [titleFires_eq] at h
  exact beq_iff_eq.mp h

theorem findMessageText_updateBotText_some (ss : List ChatSession) (sid mid t : String)
    (h : (findMessageText ss sid mid).isSome = true) :
    findMessageText (updateBotText ss sid mid t) sid mid = some t := by
  cases hs : sessionById ss sid with
  | none =>
    unfold findMessageText at h
    rw [hs] at h
    cases h
  | some s =>
    unfold findMessageText at h ⊢
    rw [hs] at h
    rw [sessionById_updateBotText_some ss sid mid t s hs]
    simp only [Option.some_bind] at h ⊢
    rw [List.find?_map]
    have hcomp : ((fun m : Message => m.id == mid) ∘
        fun m : Message => if m.id = mid then { m with text := t } else m)
        = fun m : Message => m.id == mid := by
      funext m
      by_cases hm : m.id = mid <;> simp [hm]
    rw [hcomp]
    cases hf : s.messages.find? fun m => m.id == mid with
    | none => rw [hf] at h; cases h
    | some m0 =>
      have hid : m0.id = mid := by
        simpa using List.find?_some
          (show List.find? (fun m => m.id == mid) s.messages = some m0 from hf)
      simp [hid]

theorem findMessageText_appendMessage_none (ss : List ChatSession) (sid mid : String)
    (m : Message) (h : findMessageText ss sid mid = none) (hm : m.id ≠ mid) :
    findMessageText (appendMessage ss sid m) sid mid = none := by
  cases hs : sessionById ss sid with
  | none =>
    unfold findMessageText
    rw [sessionById_appendMessage_none ss sid m hs]
    rfl
  | some s =>
    unfold findMessageText at h ⊢
    rw [hs] at h
    rw [sessionById_appendMessage_some ss sid m s hs]
    simp only [Option.some_bind] at h ⊢
    rw [List.find?_append]
    have hnone : s.messages.find? (fun m2 => m2.id == mid) = none := by
      cases hf : s.messages.find? fun m2 => m2.id == mid with
      | none => rfl
      | some m0 => rw [hf] at h; cases h
    rw [hnone]
    have hb : (m.id == mid) = false := by
      cases hq : m.id == mid with
      | true => exact absurd (eq_of_beq hq) hm
      | false => rfl
    simp [List.find?, hb]

theorem findMessageText_appendMessage_fresh (ss : List ChatSession) (sid : String)
    (m : Message) (hs : (sessionById ss sid).isSome = true)
    (h : findMessageText ss sid m.id = none) :
    findMessageText (appendMessage ss sid m) sid m.id = some m.text := by
  cases hss : sessionById ss sid with
  | none => rw [hss] at hs; cases hs
  | some s =>
    unfold findMessageText at h ⊢
    rw [hss] at h
    rw [sessionById_appendMessage_some ss sid m s hss]
    simp only [Option.some_bind] at h ⊢
    rw [List.find?_append]
    have hnone : s.messages.find? (fun m2 => m2.id == m.id) = none := by
      cases hf : s.messages.find? fun m2 => m2.id == m.id with
      | none => rfl
      | some m0 => rw [hf] at h; cases h
    rw [hnone]
    simp [List.find?]

theorem streamLoop_fst (sid mid : String) (frags : List String) (acc : String)
    (ss : List ChatSession) :
    (streamLoop sid mid frags acc ss).1 = acc ++ concatFragments frags := by
  induction frags generalizing acc ss with
  | nil => simp [streamLoop, concatFragments]
  | cons c rest ih =>
    simp only [streamLoop, concatFragments]
    rw [ih, String.append_assoc]

theorem streamLoop_text (sid mid : String) (frags : List String) (acc : String)
    (ss : List ChatSession) (h : findMessageText ss sid mid = some acc) :
    findMessageText (streamLoop sid mid frags acc ss).2 sid mid
      = some (acc ++ concatFragments frags) := by
  induction frags generalizing acc ss with
  | nil => simpa [streamLoop, concatFragments] using h
  | cons c rest ih =>
    simp only [streamLoop, concatFragments]
    rw [← String.append_assoc]
    exact ih (acc ++ c) _
      (findMessageText_updateBotText_some ss sid mid (acc ++ c) (by rw [h]; rfl))

theorem streamLoop_msgCount (sid mid : String) (frags : List String) (acc : String)
    (ss : List ChatSession) :
    msgCount (streamLoop sid mid frags acc ss).2 sid = msgCount ss sid := by
  induction frags generalizing acc ss with
  | nil => rfl
  | cons c rest ih =>
    simp only [streamLoop]
    rw [ih, msgCount_updateBotText]

theorem streamLoop_isSome (sid mid : String) (frags : List String) (acc : String)
    (ss : List ChatSession) :
    (sessionById (streamLoop sid mid frags acc ss).2 sid).isSome
      = (sessionById ss sid).isSome := by
  induction frags generalizing acc ss with
  | nil => rfl
  | cons c rest ih =>
    simp only [streamLoop]
    rw [ih, isSome_updateBotText]

/-- Alias for the number of messages a turn appends to the session. -/
def Outcome.appended : Outcome → Nat
  | .textFail _ _ => 3
  | _ => 2

theorem processTurn_isSome (b : MessageRow → Option DbError) (ss : List ChatSession)
    (sid : String) (u : Message) (mid eid : String) (ts : Nat) (o : Outcome) :
    (sessionById (processTurn b ss sid u mid eid ts o).sessions sid).isSome
      = (sessionById ss sid).isSome := by
  cases o with
  | textOk chunks =>
    simp only [processTurn]
    rw [streamLoop_isSome, isSome_appendMessage, isSome_appendMessage]
  | textFail chunks errText =>
    simp only [processTurn]
    rw [isSome_appendMessage, streamLoop_isSome, isSome_appendMessage, isSome_appendMessage]
  | imageOk botText image =>
    simp only [processTurn]
    rw [isSome_appendMessage, isSome_appendMessage]
  | imageFail errText =>
    simp only [processTurn]
    rw [isSome_appendMessage, isSome_appendMessage]

theorem processTurn_msgCount (b : MessageRow → Option DbError) (ss : List ChatSession)
    (sid : String) (u : Message) (mid eid : String) (ts : Nat) (o : Outcome)
    (h : (sessionById ss sid).isSome = true) :
    msgCount (processTurn b ss sid u mid eid ts o).sessions sid
      = msgCount ss sid + o.appended := by
  have h1 : (sessionById (appendMessage ss sid u) sid).isSome = true := by
    rw [isSome_appendMessage]; exact h
  cases o with
  | textOk chunks =>
    simp only [processTurn, Outcome.appended]
    rw [streamLoop_msgCount,
      msgCount_appendMessage _ _ _ h1, msgCount_appendMessage _ _ _ h]
  | textFail chunks errText =>
    have h2 : (sessionById
        (appendMessage (appendMessage ss sid u) sid (placeholderMsg mid ts)) sid).isSome
        = true := by
      rw [isSome_appendMessage]; exact h1
    have h3 : (sessionById (streamLoop sid mid (streamTexts chunks) ""
        (appendMessage (appendMessage ss sid u) sid (placeholderMsg mid ts))).2 sid).isSome
        = true := by
      rw [streamLoop_isSome]; exact h2
    simp only [processTurn, Outcome.appended]
    rw [msgCount_appendMessage _ _ _ h3, streamLoop_msgCount,
      msgCount_appendMessage _ _ _ h1, msgCount_appendMessage _ _ _ h]
  | imageOk botText image =>
    simp only [processTurn, Outcome.appended]
    rw [msgCount_appendMessage _ _ _ h1, msgCount_appendMessage _ _ _ h]
  | imageFail errText =>
    simp only [processTurn, Outcome.appended]
    rw [msgCount_appendMessage _ _ _ h1, msgCount_appendMessage _ _ _ h]

/-- The title trigger of one turn, expressed over the post-turn store. -/
theorem processTurn_fired (b : MessageRow → Option DbError) (ss : List ChatSession)
    (sid : String) (u : Message) (mid eid : String) (ts : Nat) (o : Outcome) :
    (processTurn b ss sid u mid eid ts o).titleFired
      = (o.isSuccess &&
          (msgCount (processTurn b ss sid u mid eid ts o).sessions sid == 2)) := by
  cases o with
  | textOk chunks =>
    simp only [processTurn, Outcome.isSuccess, Bool.true_and]
    rw [titleFires_eq]
  | textFail chunks errText =>
    simp only [processTurn, Outcome.isSuccess, Bool.false_and]
  | imageOk botText image =>
    simp only [processTurn, Outcome.isSuccess, Bool.true_and]
    rw [titleFires_eq]
  | imageFail errText =>
    simp only [processTurn, Outcome.isSuccess, Bool.false_and]

/-- Once a session holds a message, no later turn of a run triggers the
title synthesis again. -/
theorem runTurns_flags_false (b : MessageRow → Option DbError) (sid : String) :
    ∀ (turns : List TurnInput) (ss : List ChatSession),
      1 ≤ msgCount ss sid →
      ∀ f ∈ (runTurns b ss sid turns).2, f = false := by
  intro turns
  induction turns with
  | nil =>
    intro ss _ f hf
    simp [runTurns] at hf
  | cons t rest ih =>
    intro ss hcount f hf
    have hsome : (sessionById ss sid).isSome = true := msgCount_pos_isSome ss sid hcount
    have hgrow := processTurn_msgCount b ss sid t.userMsg t.botMessageId t.errId t.ts
      t.outcome hsome
    have happ : 2 ≤ t.outcome.appended := by
      cases t.outcome <;> simp [Outcome.appended]
    have hpost : msgCount (processTurn b ss sid t.userMsg t.botMessageId t.errId t.ts
        t.outcome).sessions sid ≠ 2 := by
      rw [hgrow]
      omega
    have hfalse : (processTurn b ss sid t.userMsg t.botMessageId t.errId t.ts
        t.outcome).titleFired = false := by
      rw [processTurn_fired]
      have : (msgCount (processTurn b ss sid t.userMsg t.botMessageId t.errId t.ts
          t.outcome).sessions sid == 2) = false := by
        cases hq : msgCount (processTurn b ss sid t.userMsg t.botMessageId t.errId t.ts
            t.outcome).sessions sid == 2 with
        | true => exact absurd (beq_iff_eq.mp hq) hpost
        | false => rfl
      rw [this, Bool.and_false]
    simp only [runTurns] at hf
    rcases List.mem_cons.mp hf with h1 | h2
    · rw [h1, hfalse]
    · exact ih (processTurn b ss sid t.userMsg t.botMessageId t.errId t.ts
        t.outcome).sessions (by rw [hgrow]; omega) f h2

/-- The title trigger fires during at most one turn of any run. -/
theorem runTurns_count_le_one (b : MessageRow → Option DbError) (sid : String) :
    ∀ (turns : List TurnInput) (ss : List ChatSession),
      ((runTurns b ss sid turns).2.count true) ≤ 1 := by
  intro turns
  induction turns with
  | nil =>
    intro ss
    simp [runTurns]
  | cons t rest ih =>
    intro ss
    simp only [runTurns]
    by_cases hf : (processTurn b ss sid t.userMsg t.botMessageId t.errId t.ts
        t.outcome).titleFired = true
    · have hcount2 : msgCount (processTurn b ss sid t.userMsg t.botMessageId t.errId
          t.ts t.outcome).sessions sid = 2 := by
        have := processTurn_fired b ss sid t.userMsg t.botMessageId t.errId t.ts t.outcome
        rw [hf] at this
        have hand := this.symm
        exact beq_iff_eq.mp (Bool.and_elim_right hand)
      have hrest : ∀ f ∈ (runTurns b (processTurn b ss sid t.userMsg t.botMessageId
          t.errId t.ts t.outcome).sessions sid rest).2, f = false :=
        runTurns_flags_false b sid rest _ (by rw [hcount2]; omega)
      have hzero : ((runTurns b (processTurn b ss sid t.userMsg t.botMessageId
          t.errId t.ts t.outcome).sessions sid rest).2.count true) = 0 := by
        rw [List.count_eq_zero]
        intro hmem
        exact absurd (hrest true hmem) (by simp)
      rw [hf]
      simp [List.count_cons, hzero]
    · have hf2 : (processTurn b ss sid t.userMsg t.botMessageId t.errId t.ts
          t.outcome).titleFired = false := by
        cases hq : (processTurn b ss sid t.userMsg t.botMessageId t.errId t.ts
            t.outcome).titleFired with
        | true => exact absurd hq hf
        | false => rfl
      rw [hf2]
      simp only [List.count_cons]
      have := ih (processTurn b ss sid t.userMsg t.botMessageId t.errId t.ts
        t.outcome).sessions
      simp
      omega

/-! ## Shared retry facts and concrete instances -/

theorem retry_always_quota {T : Type} (e : JsError) (fn : Nat → Except JsError T)
    (h : isQuotaError e = true) (hf : ∀ i, fn i = .error e) :
    retryWithBackoff fn 3 1000 = ⟨.error (.js e), 3, [1000, 2000]⟩ := by
  unfold retryWithBackoff
  simp [retryLoop, hf, h]

theorem retry_first_nonquota {T : Type} (e : JsError) (fn : Nat → Except JsError T)
    (h : isQuotaError e = false) (hf : fn 0 = .error e) :
    retryWithBackoff fn 3 1000 = ⟨.error (.js e), 1, []⟩ := by
  unfold retryWithBackoff
  simp [retryLoop, hf, h]

/-- A rate-limited error value: explicit 429 status, and a serialized body
carrying both textual markers. -/
def rateLimitedErr : JsError :=
  { status := some 429, code := none, nestedCode := none,
    json := "status 429 RESOURCE_EXHAUSTED" }

/-- A non-rate-limited error value: none of the quota markers. -/
def plainErr : JsError :=
  { status := some 500, code := none, nestedCode := none, json := "internal failure" }

def alwaysRateLimited : Nat → Except JsError Unit := fun _ => .error rateLimitedErr

def alwaysPlain : Nat → Except JsError Unit := fun _ => .error plainErr

/-- A persistence backend accepting every insert. -/
def acceptAll : MessageRow → Option DbError := fun _ => none

/-- A capacity-rejection error from the persistence service. -/
def capacityErr : DbError := { code := "53400", message := "database capacity exceeded" }

/-- A persistence backend rejecting every insert for capacity. -/
def rejectAll : MessageRow → Option DbError := fun _ => some capacityErr

/-! ## Claims -/

/-- C2 counterexample: with every attempt failing rate-limited, the inserted
waits are exactly 1000ms and 2000ms; contrary to the claim, no 4000ms wait is
ever performed (the 3rd failure propagates immediately). -/
theorem c2_counterexample :
    (retryWithBackoff alwaysRateLimited 3 1000).delays = [1000, 2000]
    ∧ 4000 ∉ (retryWithBackoff alwaysRateLimited 3 1000).delays := by
  decide

/-- C2 (amended): for a call failing rate-limited on every attempt, the retry
controller makes exactly 3 attempts, waiting 1000ms before the 2nd attempt
and 2000ms before the 3rd (strict doubling of the initial 1000ms); after the
3rd failure the error propagates immediately, so only those two waits — and
in particular no 4000ms wait — occur. -/
theorem c2_backoff_schedule {T : Type} (e : JsError) (fn : Nat → Except JsError T)
    (h : isQuotaError e = true) (hf : ∀ i, fn i = .error e) :
    retryWithBackoff fn 3 1000 = ⟨.error (.js e), 3, [1000, 2000]⟩
    ∧ 4000 ∉ (retryWithBackoff fn 3 1000).delays := by
  rw [retry_always_quota e fn h hf]
  refine ⟨rfl, ?_⟩
  show (4000 : Nat) ∉ [1000, 2000]
  decide

/-- C2 witness: the amended schedule at a concrete rate-limited error. -/
theorem c2_witness :
    retryWithBackoff alwaysRateLimited 3 1000
      = ⟨.error (.js rateLimitedErr), 3, [1000, 2000]⟩ :=
  (c2_backoff_schedule rateLimitedErr alwaysRateLimited (by decide) (fun _ => rfl)).1

/-- C3: a call failing rate-limited on every attempt is attempted exactly 3
times and then the original error propagates; a call failing with a
non-rate-limited error is attempted exactly once, the error propagates
immediately, and no wait is inserted. -/
theorem c3_retry_attempts {T : Type} (e1 e2 : JsError)
    (fn1 fn2 : Nat → Except JsError T)
    (h1 : isQuotaError e1 = true) (hf1 : ∀ i, fn1 i = .error e1)
    (h2 : isQuotaError e2 = false) (hf2 : ∀ i, fn2 i = .error e2) :
    ((retryWithBackoff fn1 3 1000).attempts = 3
      ∧ (retryWithBackoff fn1 3 1000).result = .error (.js e1))
    ∧ ((retryWithBackoff fn2 3 1000).attempts = 1
      ∧ (retryWithBackoff fn2 3 1000).result = .error (.js e2)
      ∧ (retryWithBackoff fn2 3 1000).delays = []) := by
  rw [retry_always_quota e1 fn1 h1 hf1, retry_first_nonquota e2 fn2 h2 (hf2 0)]
  exact ⟨⟨rfl, rfl⟩, rfl, rfl, rfl⟩

/-- C3 witness: attempt counts at concrete rate-limited and plain errors. -/
theorem c3_witness :
    ((retryWithBackoff alwaysRateLimited 3 1000).attempts = 3
      ∧ (retryWithBackoff alwaysRateLimited 3 1000).result
          = .error (.js rateLimitedErr))
    ∧ ((retryWithBackoff alwaysPlain 3 1000).attempts = 1
      ∧ (retryWithBackoff alwaysPlain 3 1000).result = .error (.js plainErr)
      ∧ (retryWithBackoff alwaysPlain 3 1000).delays = []) :=
  c3_retry_attempts rateLimitedErr plainErr alwaysRateLimited alwaysPlain
    (by decide) (fun _ => rfl) (by decide) (fun _ => rfl)

/-- C1: in a streaming text-mode turn, once the empty placeholder Model
message is appended, each fragment delivered by the stream rewrites that
message's text to the concatenation of the fragments received so far (in
arrival order), and at stream completion the finalized Model message text —
both in the store and in the persisted row — is the exact concatenation of
all delivered fragments in delivery order. -/
theorem c1_streaming_concat (backend : MessageRow → Option DbError)
    (sessions : List ChatSession) (sid : String) (userMsg : Message)
    (mid eid : String) (ts : Nat) (chunks : List (Option String))
    (hs : (sessionById sessions sid).isSome = true)
    (hfresh : findMessageText sessions sid mid = none)
    (huser : userMsg.id ≠ mid) :
    (∀ pre suf, streamTexts chunks = pre ++ suf →
      findMessageText (streamLoop sid mid pre ""
          (appendMessage (appendMessage sessions sid userMsg) sid
            (placeholderMsg mid ts))).2 sid mid
        = some (concatFragments pre))
    ∧ findMessageText (processTurn backend sessions sid userMsg mid eid ts
        (.textOk chunks)).sessions sid mid
        = some (concatFragments (streamTexts chunks))
    ∧ (processTurn backend sessions sid userMsg mid eid ts
        (.textOk chunks)).saves.map (fun sr => sr.attempted.map MessageRow.text)
        = [[userMsg.text], [concatFragments (streamTexts chunks)]] := by
  have h1 : findMessageText (appendMessage sessions sid userMsg) sid mid = none :=
    findMessageText_appendMessage_none sessions sid mid userMsg hfresh huser
  have h2 : (sessionById (appendMessage sessions sid userMsg) sid).isSome = true := by
    rw [isSome_appendMessage]
    exact hs
  have hplaceholder : findMessageText (appendMessage (appendMessage sessions sid userMsg)
      sid (placeholderMsg mid ts)) sid mid = some "" :=
    findMessageText_appendMessage_fresh (appendMessage sessions sid userMsg) sid
      (placeholderMsg mid ts) h2 h1
  refine ⟨?_, ?_, ?_⟩
  · intro pre suf hsplit
    have := streamLoop_text sid mid pre "" _ hplaceholder
    simpa using this
  · simp only [processTurn]
    have := streamLoop_text sid mid (streamTexts chunks) "" _ hplaceholder
    simpa using this
  · simp only [processTurn]
    rw [streamLoop_fst]
    simp [saveMessage, messageRow, placeholderMsg]

def demoSessions : List ChatSession :=
  [{ id := "s1", title := "New Conversation", messages := [], createdAt := 0 }]

def demoUser : Message :=
  { id := "u1", role := .user, text := "Hello", timestamp := 1 }

def demoChunks : List (Option String) := [some "Hi", some " there", none, some "!"]

/-- C1 witness: submitting "Hello" to an empty session and streaming the
fragments "Hi", " there", "!" finalizes the Model message text "Hi there!". -/
theorem c1_witness :
    findMessageText (processTurn acceptAll demoSessions "s1" demoUser "b1" "e1" 2
        (.textOk demoChunks)).sessions "s1" "b1" = some "Hi there!" := by
  have h := c1_streaming_concat acceptAll demoSessions "s1" demoUser "b1" "e1" 2
    demoChunks (by decide) (by decide) (by decide)
  exact h.2.1.trans (by decide)

def bigPayload : String := "data-image-very-large-base64-payload"

def bigAttachmentMsg : Message :=
  { id := "m1", role := .user, text := "look at this", imageUrl := some bigPayload,
    timestamp := 7 }

/-- C4 counterexample: when the backend rejects the save for capacity, the
engine does not strip attachment payloads and does not retry: exactly one
insert is attempted and its payload still carries the full attachment, so
the claimed strip-and-retry (and truncate-and-retry) stages do not exist. -/
theorem c4_counterexample :
    (saveMessage rejectAll "s1" bigAttachmentMsg).loggedError = some capacityErr
    ∧ (saveMessage rejectAll "s1" bigAttachmentMsg).attempted.length = 1
    ∧ (saveMessage rejectAll "s1" bigAttachmentMsg).attempted.map MessageRow.image_url
        = [some bigPayload] := by
  decide

/-- C4 (amended): a durable save is attempted exactly once with the
unmodified payload; a rejection is only logged (no stripping, no truncation
to recent sessions, no retry), and the in-memory session collection produced
by a turn is independent of the persistence backend's outcomes — a failed
save never rolls back or alters the in-memory Session Store. -/
theorem c4_single_attempt_save :
    (∀ (backend : MessageRow → Option DbError) (sid : String) (m : Message),
      (saveMessage backend sid m).attempted = [messageRow sid m]
      ∧ (saveMessage backend sid m).loggedError = backend (messageRow sid m))
    ∧ (∀ (b1 b2 : MessageRow → Option DbError) (st : AppState)
        (sid uid mid eid : String) (ts : Nat) (o : Outcome),
      (processMessageApp b1 st sid uid mid eid ts o).state
        = (processMessageApp b2 st sid uid mid eid ts o).state) := by
  constructor
  · intro backend sid m
    exact ⟨rfl, rfl⟩
  · intro b1 b2 st sid uid mid eid ts o
    unfold processMessageApp
    cases hb : submitBlocked st with
    | true => rfl
    | false =>
      simp only
      have hsess : (processTurn b1 st.sessions sid
            { id := uid, role := .user, text := jsTrim st.input,
              imageUrl := st.selectedImage, timestamp := ts } mid eid ts o).sessions
          = (processTurn b2 st.sessions sid
            { id := uid, role := .user, text := jsTrim st.input,
              imageUrl := st.selectedImage, timestamp := ts } mid eid ts o).sessions := by
        cases o <;> rfl
      rw [hsess]
      rfl

/-- C5 counterexample: with launch snapshot "A", a concurrent newer task
having moved the live memory to "B", and task result "C", the continuation
applies and persists "C" even though the live value changed since the
snapshot — refuting the claimed "live value unchanged" conjunct of the
if-and-only-if. -/
theorem c5_counterexample :
    (refineContinuation "A" "C" "B").2 = true
    ∧ (refineContinuation "A" "C" "B").1 = "C"
    ∧ ¬ (("C" ≠ "A") ∧ ("B" : String) = "A") := by
  decide

/-- C5 (amended): the refinement result is applied as the new memory and
persisted exactly when it differs from the value snapshotted at task launch,
regardless of whether the live memory has changed since (a stale task can
overwrite a newer value); otherwise the live memory is left unchanged. -/
theorem c5_snapshot_only (snapshot newMemory live : String) :
    (refineContinuation snapshot newMemory live).2 = decide (newMemory ≠ snapshot)
    ∧ (refineContinuation snapshot newMemory live).1
        = (if newMemory ≠ snapshot then newMemory else live) := by
  by_cases h : newMemory = snapshot <;> simp [refineContinuation, h]

/-- C6: after a single final recognition result at t=0 (and no further
events) from a freshly started machine, the machine is still Listening at
t=2499ms, is Idle (listening and intent cleared) at every t ≥ 2500ms, and
the committed input buffer equals the result's text; every recognition
result rearms the silence timer to 2500ms from its arrival time. -/
theorem c6_silence_timer (txt : String) (t : Nat) (ht : 2500 ≤ t) :
    (observeAt (onResult 0 txt "" (onStart 0 initialVoiceState)) 2499).listening = true
    ∧ (observeAt (onResult 0 txt "" (onStart 0 initialVoiceState)) t).listening = false
    ∧ (observeAt (onResult 0 txt "" (onStart 0 initialVoiceState)) t).intent = false
    ∧ (observeAt (onResult 0 txt "" (onStart 0 initialVoiceState)) t).input = txt
    ∧ (∀ (now : Nat) (f i : String) (s : VoiceState),
        (onResult now f i s).silenceDeadline = some (now + 2500)) := by
  have hinput : (onResult 0 txt "" (onStart 0 initialVoiceState)).input = txt := by
    have hjt : jsTrim "" = "" := rfl
    by_cases htxt : txt = ""
    · simp [onResult, onStart, initialVoiceState, htxt]
    · simp [onResult, onStart, initialVoiceState, htxt, commitFinal, hjt]
  have hstop : observeAt (onResult 0 txt "" (onStart 0 initialVoiceState)) t
      = stopListening (onResult 0 txt "" (onStart 0 initialVoiceState)) := by
    simp [observeAt, onResult, ht]
  refine ⟨?_, ?_, ?_, ?_, fun now f i s => rfl⟩
  · simp [observeAt, onResult, onStart, initialVoiceState]
  · rw [hstop]
    rfl
  · rw [hstop]
    rfl
  · rw [hstop]
    exact hinput

/-- C6 witness: the scenario at the concrete utterance "hello world" and
t = 2500. -/
theorem c6_witness :
    (observeAt (onResult 0 "hello world" "" (onStart 0 initialVoiceState)) 2499).listening
      = true
    ∧ (observeAt (onResult 0 "hello world" "" (onStart 0 initialVoiceState)) 2500).listening
      = false
    ∧ (observeAt (onResult 0 "hello world" "" (onStart 0 initialVoiceState)) 2500).input
      = "hello world" := by
  have h := c6_silence_timer "hello world" 2500 (by decide)
  exact ⟨h.1, h.2.1, h.2.2.2.1⟩

/-- C7: on an unsolicited resource end while intent is still Listening, a new
resource is started and the observable state is unchanged (Idle is never
surfaced); if intent was already Idle, only cleanup runs — the listening flag
and the interim preview are cleared and no resource is started. -/
theorem c7_restart_on_end (s : VoiceState) :
    (s.intent = true → onEnd true s = (s, true))
    ∧ (s.intent = false → ∀ startOk : Bool,
        onEnd startOk s = ({ s with listening := false, interim := "" }, false)) := by
  constructor
  · intro h
    simp [onEnd, h]
  · intro h startOk
    simp [onEnd, h]

def demoListeningState : VoiceState :=
  { intent := true, listening := true, input := "take a note", interim := "and",
    silenceDeadline := some 9000 }

/-- C7 witness: both branches at concrete states. -/
theorem c7_witness :
    onEnd true demoListeningState = (demoListeningState, true)
    ∧ onEnd false initialVoiceState
        = ({ initialVoiceState with listening := false, interim := "" }, false) :=
  ⟨(c7_restart_on_end demoListeningState).1 rfl,
   (c7_restart_on_end initialVoiceState).2 rfl false⟩

def c8session : ChatSession :=
  { id := "s1", title := "New Conversation", messages := [], createdAt := 0 }

def c8turnA : TurnInput :=
  { userMsg := { id := "u1", role := .user, text := "hello", timestamp := 1 },
    botMessageId := "b1", errId := "e1", ts := 1,
    outcome := .textFail [] "I apologize, but I encountered an error. Please try again." }

def c8turnB : TurnInput :=
  { userMsg := { id := "u2", role := .user, text := "hello again", timestamp := 2 },
    botMessageId := "b2", errId := "e2", ts := 2,
    outcome := .textOk [some "sure"] }

/-- C8 counterexample: a session whose first exchange fails and whose second
exchange completes never triggers title synthesis (the completed exchange
leaves five messages, not two), refuting "fires exactly once per session". -/
theorem c8_counterexample :
    (runTurns acceptAll [c8session] "s1" [c8turnA, c8turnB]).2 = [false, false]
    ∧ (runTurns acceptAll [c8session] "s1" [c8turnA, c8turnB]).2.count true = 0
    ∧ c8turnB.outcome.isSuccess = true
    ∧ msgCount (runTurns acceptAll [c8session] "s1" [c8turnA, c8turnB]).1 "s1" = 5 := by
  decide

/-- C8 (amended): title synthesis fires at most once per session over any run
of exchanges, and it is triggered if and only if the exchange completed
successfully and the target session holds exactly two messages immediately
afterwards. -/
theorem c8_title_trigger :
    (∀ (b : MessageRow → Option DbError) (ss : List ChatSession) (sid : String)
        (turns : List TurnInput),
      ((runTurns b ss sid turns).2.count true) ≤ 1)
    ∧ (∀ (b : MessageRow → Option DbError) (ss : List ChatSession) (sid : String)
        (u : Message) (mid eid : String) (ts : Nat) (o : Outcome),
      (processTurn b ss sid u mid eid ts o).titleFired
        = (o.isSuccess
            && (msgCount (processTurn b ss sid u mid eid ts o).sessions sid == 2))) :=
  ⟨fun b ss sid turns => runTurns_count_le_one b sid turns ss,
   fun b ss sid u mid eid ts o => processTurn_fired b ss sid u mid eid ts o⟩

def pcmDemoBytes : List Nat := [0, 0, 0, 64, 0, 192, 255, 127, 0, 128]

/-- C9: the speech payload is decoded as signed 16-bit little-endian PCM into
one channel at 24000 Hz, each sample divided by 32768: the bytes encoding
[0, 16384, -16384, 32767, -32768] map to [0, 1/2, -1/2, 32767/32768, -1]. -/
theorem c9_pcm_decode :
    (∀ bytes, (decodePcm bytes).channels = 1 ∧ (decodePcm bytes).sampleRate = 24000)
    ∧ (decodePcm pcmDemoBytes).samples = [0, 1/2, -1/2, 32767/32768, -1] := by
  refine ⟨fun bytes => ⟨rfl, rfl⟩, ?_⟩
  simp only [decodePcm, pcmDemoBytes]
  norm_num [pcm16leSamples, int16OfNat, normalizeSample]

/-- C10: while the global loading flag is set by an in-flight primary turn,
any further submission — whatever session it targets — returns immediately
without appending a message, issuing a request, or attempting a save; and
whenever a turn actually runs, the loading flag is cleared when it ends,
on success and on failure alike. -/
theorem c10_loading_guard (backend : MessageRow → Option DbError) (st : AppState)
    (sid uid mid eid : String) (ts : Nat) (o : Outcome) :
    (st.isLoading = true →
      processMessageApp backend st sid uid mid eid ts o = ⟨st, false, []⟩)
    ∧ ((processMessageApp backend st sid uid mid eid ts o).requestIssued = true →
      (processMessageApp backend st sid uid mid eid ts o).state.isLoading = false) := by
  constructor
  · intro h
    have hb : submitBlocked st = true := by
      simp [submitBlocked, h]
    unfold processMessageApp
    rw [hb]
    rfl
  · intro h
    by_cases hb : submitBlocked st = true
    · unfold processMessageApp at h
      rw [hb] at h
      exact Bool.noConfusion h
    · have hb2 : submitBlocked st = false := by
        cases hq : submitBlocked st with
        | true => exact absurd hq hb
        | false => rfl
      unfold processMessageApp
      rw [hb2]
      rfl

def loadingState : AppState :=
  { sessions := demoSessions, isLoading := true, input := "second question",
    selectedImage := none, isImageGenMode := false, hasUser := true,
    userMemory := "", voice := initialVoiceState }

def idleState : AppState :=
  { sessions := demoSessions, isLoading := false, input := "first question",
    selectedImage := none, isImageGenMode := false, hasUser := true,
    userMemory := "", voice := initialVoiceState }

/-- C10 witness: a submission during an in-flight turn is a no-op, and a turn
that runs ends with the loading flag cleared. -/
theorem c10_witness :
    processMessageApp acceptAll loadingState "s1" "u9" "b9" "e9" 9
        (.textOk [some "hi"]) = ⟨loadingState, false, []⟩
    ∧ (processMessageApp acceptAll idleState "s1" "u9" "b9" "e9" 9
        (.textOk [some "hi"])).state.isLoading = false :=
  ⟨(c10_loading_guard acceptAll loadingState "s1" "u9" "b9" "e9" 9
      (.textOk [some "hi"])).1 rfl,
   (c10_loading_guard acceptAll idleState "s1" "u9" "b9" "e9" 9
      (.textOk [some "hi"])).2 (by decide)⟩

end ShakBot
